import Mathlib

/-!
Verification development for the Qdestiny service-orchestration engine.

Shallow embedding of the placement scheduler (src/core/scheduler.py), the
orchestrator (src/core/manager.py), the task-decorator validation
(src/core/decorators.py) and the exception taxonomy (src/core/exceptions.py).

Modelling conventions:
* Python numbers (ints and the float `cpu_cores`) are modelled as exact
  rationals; the source performs only additions, subtractions, `max` and
  comparisons on them.
* Python dicts are association lists in insertion order; assignment keeps an
  existing key in place and appends a new one (`dictSet`), matching dict
  semantics.  Keys of a real dict are unique, which theorems assume through
  explicit `Nodup` hypotheses where needed.
* Wall-clock timestamps (`last_updated`, `start_time`, `scheduled_at`) are
  written by the source but never read by any operation embedded here, and are
  omitted from the records.
* OS effects (process launch, signals, sockets, md5, `random.choice`) are
  oracles passed in as explicit arguments.
-/

namespace Qdestiny

/-- A bundle of the four resource dimensions, as produced by
`ServiceDefinition.get_resource_requirements` and stored in a node's
`used_resources` dict (src/core/scheduler.py allocates and initialises all
four keys, so the dict always carries them). -/
structure Resources where
  cpu_cores : ℚ := 0
  memory_mb : ℚ := 0
  disk_mb : ℚ := 0
  gpu_count : ℚ := 0
deriving Repr, DecidableEq

/-- Component-wise non-negativity of a resource bundle. -/
def Resources.nonneg (r : Resources) : Prop :=
  0 ≤ r.cpu_cores ∧ 0 ≤ r.memory_mb ∧ 0 ≤ r.disk_mb ∧ 0 ≤ r.gpu_count

instance (r : Resources) : Decidable r.nonneg := by
  unfold Resources.nonneg; infer_instance

/-- src/models/service_definition.py, `ServiceDefinition`.  Fields never read
by any embedded operation (description, dependencies, config_schema,
metadata) are omitted. -/
structure ServiceDefinition where
  name : String
  version : String := "1.0.0"
  entry_point : Option String := none
  cpu_cores : ℚ := 1
  memory_mb : ℚ := 512
  disk_mb : ℚ := 1024
  gpu_count : ℚ := 0
  node_labels : List (String × String) := []
  max_instances : ℤ := 1
deriving Repr, DecidableEq

/-- Embeds `ServiceDefinition.get_resource_requirements`. -/
def ServiceDefinition.get_resource_requirements (d : ServiceDefinition) : Resources :=
  { cpu_cores := d.cpu_cores
    memory_mb := d.memory_mb
    disk_mb := d.disk_mb
    gpu_count := d.gpu_count }

/-- The `resources` sub-dict of a node's info dict.  Each field is optional
because every read in the source goes through `dict.get` with a per-site
default (note `_least_loaded_select` defaults `total_cpu_cores` to 1 while
`_check_node_available` defaults it to 0). -/
structure NodeResources where
  total_cpu_cores : Option ℚ := none
  total_memory_mb : Option ℚ := none
  total_disk_mb : Option ℚ := none
  gpu_count : Option ℚ := none
deriving Repr, DecidableEq

/-- A node's info dict as held in `SimpleScheduler.nodes`.  The `host` and
`type` keys are only copied into instance metadata and are omitted. -/
structure NodeInfo where
  available : Option Bool := none
  labels : List (String × String) := []
  resources : NodeResources := {}
  used_resources : Resources := {}
deriving Repr, DecidableEq

/-- The attributes dict passed to `SimpleScheduler.add_node`; a
`used_resources` key inside it would be overwritten by the explicit zero
ledger the method writes, so it is not represented. -/
structure NodeAttrs where
  available : Option Bool := none
  labels : List (String × String) := []
  resources : NodeResources := {}
deriving Repr, DecidableEq

/-- Python dict assignment `m[k] = v`: replace in place when the key exists,
append otherwise. -/
def dictSet {α : Type} (m : List (String × α)) (k : String) (v : α) : List (String × α) :=
  if m.any (fun p => p.1 = k) then
    m.map (fun p => if p.1 = k then (k, v) else p)
  else
    m ++ [(k, v)]

/-- src/core/scheduler.py, `SimpleScheduler`: the node table and the active
selection strategy. -/
structure SimpleScheduler where
  nodes : List (String × NodeInfo)
  strategy : String := "random"
deriving Repr, DecidableEq

/-- The "local" node record built by `SimpleScheduler.__init__`: 8 cores,
16384 MB memory, 102400 MB disk, 0 GPUs, a zero ledger, linux/development
labels. -/
def local_node : NodeInfo :=
  { available := some true
    labels := [("os", "linux"), ("env", "development")]
    resources :=
      { total_cpu_cores := some 8
        total_memory_mb := some 16384
        total_disk_mb := some 102400
        gpu_count := some 0 } }

/-- The node table built by `SimpleScheduler.__init__`: the single "local"
node under the default "random" strategy. -/
def initial_scheduler : SimpleScheduler :=
  { nodes := [("local", local_node)], strategy := "random" }

/-- Embeds `SimpleScheduler._check_labels_match`. -/
def check_labels_match (node_labels required_labels : List (String × String)) : Bool :=
  if required_labels.isEmpty then true
  else required_labels.all (fun kv => node_labels.lookup kv.1 == some kv.2)

/-- Embeds `SimpleScheduler._check_node_available`: availability flag, label match,
then headroom `total - used ≥ requirement` in each of the four dimensions. -/
def check_node_available (node_info : NodeInfo) (service_def : ServiceDefinition) : Bool :=
  if !(node_info.available.getD true) then false
  else if !(check_labels_match node_info.labels service_def.node_labels) then false
  else
    let req := service_def.get_resource_requirements
    if node_info.resources.total_cpu_cores.getD 0 - node_info.used_resources.cpu_cores
        < req.cpu_cores then false
    else if node_info.resources.total_memory_mb.getD 0 - node_info.used_resources.memory_mb
        < req.memory_mb then false
    else if node_info.resources.total_disk_mb.getD 0 - node_info.used_resources.disk_mb
        < req.disk_mb then false
    else if node_info.resources.gpu_count.getD 0 - node_info.used_resources.gpu_count
        < req.gpu_count then false
    else true

/-- The per-node effect of `SimpleScheduler._allocate_resources`: add the
requirement to the used ledger. -/
def NodeInfo.allocate (n : NodeInfo) (req : Resources) : NodeInfo :=
  { n with used_resources :=
      { cpu_cores := n.used_resources.cpu_cores + req.cpu_cores
        memory_mb := n.used_resources.memory_mb + req.memory_mb
        disk_mb := n.used_resources.disk_mb + req.disk_mb
        gpu_count := n.used_resources.gpu_count + req.gpu_count } }

/-- Embeds `SimpleScheduler._allocate_resources`.  The source indexes
`self.nodes[node_id]`; every call site has already established membership, so
the embedding maps the entry in place (identity off the table's domain). -/
def allocate_resources (s : SimpleScheduler) (node_id : String)
    (service_def : ServiceDefinition) : SimpleScheduler :=
  { s with nodes := s.nodes.map (fun p =>
      if p.1 = node_id then (node_id, p.2.allocate service_def.get_resource_requirements)
      else p) }

/-- The per-node effect of `SimpleScheduler._release_resources`: subtract the
requirement, floored at zero per component. -/
def NodeInfo.release (n : NodeInfo) (req : Resources) : NodeInfo :=
  { n with used_resources :=
      { cpu_cores := max 0 (n.used_resources.cpu_cores - req.cpu_cores)
        memory_mb := max 0 (n.used_resources.memory_mb - req.memory_mb)
        disk_mb := max 0 (n.used_resources.disk_mb - req.disk_mb)
        gpu_count := max 0 (n.used_resources.gpu_count - req.gpu_count) } }

/-- Embeds `SimpleScheduler._release_resources`: no-op when the node id is unknown
(the source returns early); otherwise subtract with floor.  The source's
`if used:` guard is always true here because every node record carries the
four-key ledger written by `__init__`/`add_node`. -/
def release_resources (s : SimpleScheduler) (node_id : String)
    (service_def : ServiceDefinition) : SimpleScheduler :=
  if (s.nodes.lookup node_id).isNone then s
  else
    { s with nodes := s.nodes.map (fun p =>
        if p.1 = node_id then (node_id, p.2.release service_def.get_resource_requirements)
        else p) }

/-- Embeds `SimpleScheduler._find_suitable_nodes`: ids of the nodes passing the
admission test, in table order. -/
def find_suitable_nodes (s : SimpleScheduler) (service_def : ServiceDefinition) : List String :=
  ((s.nodes.filter (fun p => check_node_available p.2 service_def)).map (fun p => p.1))

/-- Embeds `SimpleScheduler._round_robin_select`: index by the md5 hash of the
service name modulo the candidate count.  The hash value itself comes from
hashlib and is passed in as an oracle. -/
def round_robin_select (nodes : List String) (md5_val : ℕ) : String :=
  nodes.getD (md5_val % nodes.length) ""

/-- The CPU-utilisation load metric of `SimpleScheduler._least_loaded_select`
(`used_cpu / total_cpu` when `total_cpu > 0`, else 0; total defaults to 1). -/
def node_cpu_load (n : NodeInfo) : ℚ :=
  let total_cpu := n.resources.total_cpu_cores.getD 1
  if 0 < total_cpu then n.used_resources.cpu_cores / total_cpu else 0

/-- Embeds `SimpleScheduler._least_loaded_select`: scan the candidates keeping the
first node of minimal load; `none` plays the role of the initial `inf`. -/
def least_loaded_select (s : SimpleScheduler) (nodes : List String) : String :=
  (nodes.foldl (fun acc node_id =>
      let load := node_cpu_load ((s.nodes.lookup node_id).getD {})
      match acc.2 with
      | none => (node_id, some load)
      | some m => if load < m then (node_id, some load) else acc)
    (nodes.headD "", (none : Option ℚ))).1

/-- src/core/exceptions.py: the raisable error taxonomy, one constructor per
exception class instantiated by the embedded operations, carrying the
constructor arguments of the corresponding Python class.  `pythonError`
stands for a non-framework exception (e.g. an OSError out of
`subprocess.Popen`) caught by the blanket `except Exception` in
`start_service`. -/
inductive Exc where
  | invalidServiceName (service_name : String)
  | serviceNotRegistered (service_name : String)
  | serviceAlreadyRunning (service_name : String) (instance_id : String)
  | serviceStartError (service_name : String) (message : String)
  | schedulerError (message : String)
  | noAvailableNode
  | pythonError (message : String)
deriving Repr, DecidableEq

/-- Embeds `isinstance(e, SchedulerError)` over the class hierarchy of
src/core/exceptions.py: `NoAvailableNodeError` subclasses `SchedulerError`. -/
def Exc.is_scheduler_error : Exc → Bool
  | .schedulerError _ => true
  | .noAvailableNode => true
  | _ => false

/-- The `message` attribute each exception constructor builds
(src/core/exceptions.py `__init__` bodies, with the arguments the embedded
call sites pass). -/
def Exc.message : Exc → String
  | .invalidServiceName n => "无效的服务名称: '" ++ n ++ "'"
  | .serviceNotRegistered n => "服务 '" ++ n ++ "' 未在注册表中注册"
  | .serviceAlreadyRunning n iid => "服务 '" ++ n ++ "' 已在运行中 (实例ID: " ++ iid ++ ")"
  | .serviceStartError n _ => "启动服务 '" ++ n ++ "' 失败"
  | .schedulerError m => m
  | .noAvailableNode => "没有可用节点"
  | .pythonError m => m

/-- The numeric error code of each exception class. -/
def Exc.error_code : Exc → ℕ
  | .invalidServiceName _ => 2001
  | .serviceNotRegistered _ => 3001
  | .serviceAlreadyRunning _ _ => 3003
  | .serviceStartError _ _ => 3004
  | .schedulerError _ => 6000
  | .noAvailableNode => 6001
  | .pythonError _ => 0

/-- Embeds `str(e)`: `ServiceFrameworkError.__str__` renders "[code] message"; a
plain Python exception renders its message. -/
def Exc.py_str (e : Exc) : String :=
  match e with
  | .pythonError m => m
  | _ => "[" ++ toString e.error_code ++ "] " ++ e.message

/-- Embeds `SimpleScheduler.schedule`.  Returns the Python raise/return outcome
together with the post-call scheduler state (exceptions leave the state as it
was at the raise point).  `rand_index` is the oracle index drawn by
`random.choice`; `md5_val` the md5 hash drawn by `_round_robin_select`.  The
`config` argument of the source is only defaulted to `{}` and never read, so
it is not represented.  In the source the returned `node_info` aliases the
mutated dict, hence the lookup in the post-allocation state. -/
def schedule (s : SimpleScheduler) (service_def : ServiceDefinition)
    (node_id : Option String) (rand_index md5_val : ℕ) :
    Except Exc (String × NodeInfo) × SimpleScheduler :=
  match node_id with
  | some nid =>
    match s.nodes.lookup nid with
    | none => (.error (.schedulerError ("节点不存在: " ++ nid)), s)
    | some node_info =>
      if !(check_node_available node_info service_def) then
        (.error .noAvailableNode, s)
      else
        let s' := allocate_resources s nid service_def
        (.ok (nid, (s'.nodes.lookup nid).getD node_info), s')
  | none =>
    let suitable_nodes := find_suitable_nodes s service_def
    if suitable_nodes.isEmpty then (.error .noAvailableNode, s)
    else
      let selected_node :=
        if s.strategy = "random" then
          suitable_nodes.getD (rand_index % suitable_nodes.length) ""
        else if s.strategy = "round_robin" then
          round_robin_select suitable_nodes md5_val
        else if s.strategy = "least_loaded" then
          least_loaded_select s suitable_nodes
        else suitable_nodes.headD ""
      let s' := allocate_resources s selected_node service_def
      (.ok (selected_node, (s'.nodes.lookup selected_node).getD ({} : NodeInfo)), s')

/-- Embeds `SimpleScheduler.add_node`: store `{**attributes}` plus a freshly zeroed
`used_resources` ledger under the id, overwriting any existing entry. -/
def add_node (s : SimpleScheduler) (node_id : String) (attributes : NodeAttrs) :
    SimpleScheduler :=
  { s with nodes := dictSet s.nodes node_id
              ({ available := attributes.available
                 labels := attributes.labels
                 resources := attributes.resources
                 used_resources := {} } : NodeInfo) }

/-- src/models/service_instance.py, `ServiceInstance`.  Fields written but
never read by any embedded operation (config, endpoint, log_file, metrics,
metadata, service_type, the timestamps) are omitted; `id` is the uuid-based
identifier generated at construction, passed in as an oracle. -/
structure ServiceInstance where
  name : String
  id : String
  pid : Option ℕ := none
  status : String := "created"
  node_id : Option String := none
deriving Repr, DecidableEq

/-- Modelled from the spec: the instance registry of §4.3 (`serviceName →
instances`, `instanceId → instance`, `instanceId → lastHeartbeat`, plus the
service-definition table).  The class `core.registry.ServiceRegistry` that
src/core/manager.py imports is not present under src/ — the file
src/core/registry.py holds a different prototype class without instance or
heartbeat tracking — so its state and operations are modelled from §4.3's
contract, with timestamps in seconds as exact rationals. -/
structure InstanceRegistry where
  definitions : List (String × ServiceDefinition) := []
  instances : List (String × ServiceInstance) := []
  heartbeats : List (String × ℚ) := []
deriving Repr, DecidableEq

/-- Modelled from the spec: `is_service_registered` — definition-table
membership. -/
def is_service_registered (r : InstanceRegistry) (service_name : String) : Bool :=
  (r.definitions.lookup service_name).isSome

/-- Modelled from the spec: `get_service_definition`. -/
def get_service_definition (r : InstanceRegistry) (service_name : String) :
    Option ServiceDefinition :=
  r.definitions.lookup service_name

/-- Modelled from the spec: `get_instances_by_name` — the instances owned by
a service name. -/
def get_instances_by_name (r : InstanceRegistry) (service_name : String) :
    List ServiceInstance :=
  (r.instances.filter (fun p => p.2.name = service_name)).map (fun p => p.2)

/-- Modelled from the spec: `get_instance`. -/
def get_instance (r : InstanceRegistry) (instance_id : String) : Option ServiceInstance :=
  r.instances.lookup instance_id

/-- Modelled from the spec: `register_instance` — record the canonical copy
under the instance id.  Heartbeat refresh is done by the monitor thread
(`update_instance_heartbeat`), not at registration. -/
def register_instance (r : InstanceRegistry) (inst : ServiceInstance) : InstanceRegistry :=
  { r with instances := dictSet r.instances inst.id inst }

/-- Modelled from the spec: `update_instance_status` — rewrite the status of
the instance stored under the id (extra kwargs such as `stop_time` and
`exit_code` land in omitted fields). -/
def update_instance_status (r : InstanceRegistry) (instance_id status : String) :
    InstanceRegistry :=
  { r with instances := r.instances.map (fun p =>
      if p.1 = instance_id then (instance_id, { p.2 with status := status }) else p) }

/-- Modelled from the spec: `update_instance_heartbeat` — stamp `now` as the
instance's last heartbeat. -/
def update_instance_heartbeat (r : InstanceRegistry) (instance_id : String) (now : ℚ) :
    InstanceRegistry :=
  { r with heartbeats := dictSet r.heartbeats instance_id now }

/-- Modelled from the spec: staleness test of the §4.3 background checker —
a `running` instance whose recorded heartbeat is older than
`3 × heartbeatInterval`. -/
def instance_stale (r : InstanceRegistry) (now heartbeat_interval : ℚ)
    (instance_id : String) : Bool :=
  match r.instances.lookup instance_id, r.heartbeats.lookup instance_id with
  | some inst, some t =>
      inst.status == "running" && decide (3 * heartbeat_interval < now - t)
  | _, _ => false

/-- Modelled from the spec: one pass of the §4.3 background heartbeat
checker — every stale running instance is transitioned to `error` and its
heartbeat entry dropped; nothing is deregistered. -/
def check_heartbeats (r : InstanceRegistry) (now heartbeat_interval : ℚ) :
    InstanceRegistry :=
  { r with
    instances := r.instances.map (fun p =>
      if instance_stale r now heartbeat_interval p.1 then
        (p.1, { p.2 with status := "error" })
      else p)
    heartbeats := r.heartbeats.filter (fun p =>
      !(instance_stale r now heartbeat_interval p.1)) }

/-- src/core/manager.py, `ServiceManager`: the composed orchestrator state.
`processes` holds the instance ids owning a live `subprocess.Popen` handle
(the handle itself is an OS object); `instance_to_process` maps instance id
to the textual pid; `running_instances` is the local id set. -/
structure ServiceManager where
  registry : InstanceRegistry := {}
  scheduler : SimpleScheduler := initial_scheduler
  discovered_cache : List ServiceDefinition := []
  processes : List String := []
  instance_to_process : List (String × String) := []
  running_instances : List String := []
deriving Repr, DecidableEq

/-- Python `str.isspace`-relevant whitespace characters used by `str.strip`
(ASCII subset; the embedded names are ASCII). -/
def py_isspace (c : Char) : Bool :=
  c == ' ' || c == '\t' || c == '\n' || c == '\r' || c == '\x0b' || c == '\x0c'

/-- A character of the class `[a-zA-Z0-9_-]`. -/
def allowed_name_char (c : Char) : Bool :=
  (decide ('a' ≤ c) && decide (c ≤ 'z')) || (decide ('A' ≤ c) && decide (c ≤ 'Z')) ||
  (decide ('0' ≤ c) && decide (c ≤ '9')) || c == '_' || c == '-'

/-- Embeds `re.match(r'^[a-zA-Z0-9_-]+$', s)` truthiness: a non-empty run of the
class matching the whole string, where `$` (without `re.MULTILINE`) also
matches just before one trailing newline. -/
def regex_name_match (l : List Char) : Bool :=
  (!l.isEmpty && l.all allowed_name_char) ||
  (l.getLast? == some '\n' && !l.dropLast.isEmpty && l.dropLast.all allowed_name_char)

/-- Embeds `ServiceManager._validate_service_name`: `None` means the name passed;
`some e` is the raised `InvalidServiceNameError` (raised with the empty
string when the name is empty or whitespace-only). -/
def validate_service_name (service_name : String) : Option Exc :=
  if service_name == "" || service_name.data.all py_isspace then
    some (.invalidServiceName "")
  else if service_name.length < 3 then some (.invalidServiceName service_name)
  else if !(regex_name_match service_name.data) then
    some (.invalidServiceName service_name)
  else none

/-- Embeds `ServiceDiscoverer.discover_service` (src/utils/discovery.py): first
cached definition with a matching name, else the registry's; it never
mutates any state. -/
def discover_service (m : ServiceManager) (service_name : String) :
    Option ServiceDefinition :=
  match m.discovered_cache.find? (fun d => d.name = service_name) with
  | some d => some d
  | none => get_service_definition m.registry service_name

/-- The `running_count` computed in step 4 of `start_service`: instances of
the service currently in status "running". -/
def running_count (r : InstanceRegistry) (service_name : String) : ℕ :=
  ((get_instances_by_name r service_name).filter (fun i => i.status = "running")).length

/-- The outcome of the OS-level process launch inside
`ServiceManager._start_local_service`: `popenRaise` when `subprocess.Popen`
itself raises, `immediateExit` when the post-launch poll after the 0.5 s
grace period finds the process already dead (the captured log tail is the
oracle), `ok` otherwise. -/
inductive LaunchOutcome where
  | ok (pid : ℕ)
  | popenRaise (message : String)
  | immediateExit (pid : ℕ) (log_tail : String)
deriving Repr, DecidableEq

/-- Insert an id into an id list with dict/set semantics (ids are fresh
uuids, so they are in fact never already present). -/
def addId (l : List String) (id : String) : List String :=
  if l.contains id then l else l ++ [id]

/-- Embeds `ServiceManager._start_local_service`: on a successful `Popen` the pid is
recorded in the instance and in both tracking maps; an immediate exit then
raises `ServiceStartError` with the log tail (the maps keep the entry — the
caller's cleanup removes it from `_processes` only).  Log-file creation,
command building and the endpoint string are OS/filesystem effects on
omitted fields. -/
def start_local_service (m : ServiceManager) (inst : ServiceInstance)
    (launch : LaunchOutcome) : Except Exc ServiceInstance × ServiceManager :=
  match launch with
  | .popenRaise msg => (.error (.pythonError msg), m)
  | .immediateExit pid log_tail =>
      let m' := { m with processes := addId m.processes inst.id
                         instance_to_process :=
                           dictSet m.instance_to_process inst.id (toString pid) }
      (.error (.serviceStartError inst.name ("进程立即退出，错误: " ++ log_tail)), m')
  | .ok pid =>
      let m' := { m with processes := addId m.processes inst.id
                         instance_to_process :=
                           dictSet m.instance_to_process inst.id (toString pid) }
      (.ok { inst with pid := some pid }, m')

/-- Embeds `ServiceManager.start_service`.  `fresh_id` is the uuid oracle for the
new instance; `launch` the process-launch oracle; `rand_index`/`md5_val` the
scheduler's oracles.  Step 5 (`_prepare_config`) only defaults a `port` key
by probing OS sockets and the resulting config is never read by `schedule`
nor by any embedded field, so it has no representation.  The source starts
non-"local" nodes locally as well, so the launch step is uniform. -/
def start_service (m : ServiceManager) (service_name : String)
    (node_id : Option String) (auto_discover : Bool) (fresh_id : String)
    (launch : LaunchOutcome) (rand_index md5_val : ℕ) :
    Except Exc ServiceInstance × ServiceManager :=
  match validate_service_name service_name with
  | some e => (.error e, m)
  | none =>
    if !(is_service_registered m.registry service_name) &&
       !(auto_discover && (discover_service m service_name).isSome) then
      (.error (.serviceNotRegistered service_name), m)
    else
      match get_service_definition m.registry service_name with
      | none => (.error (.serviceNotRegistered service_name), m)
      | some service_def =>
        if 0 < service_def.max_instances ∧
           service_def.max_instances ≤ (running_count m.registry service_name : ℤ) then
          (.error (.serviceAlreadyRunning service_name
              ("已达到最大实例数: " ++ toString service_def.max_instances)), m)
        else
          match schedule m.scheduler service_def node_id rand_index md5_val with
          | (.error e, s') => (.error e, { m with scheduler := s' })
          | (.ok (scheduled_node_id, _node_info), s') =>
            let m1 := { m with scheduler := s' }
            let inst : ServiceInstance :=
              { name := service_name, id := fresh_id, node_id := some scheduled_node_id }
            match start_local_service m1 inst launch with
            | (.ok inst', m2) =>
              let inst2 := { inst' with status := "running" }
              let m3 := { m2 with registry := register_instance m2.registry inst2
                                  running_instances := addId m2.running_instances inst2.id }
              (.ok inst2, m3)
            | (.error e, m2) =>
              let m3 := { m2 with processes := m2.processes.filter (fun i => i ≠ inst.id) }
              let m4 := { m3 with scheduler :=
                  release_resources m3.scheduler scheduled_node_id service_def }
              (.error (.serviceStartError service_name e.py_str), m4)

/-- Embeds `ServiceManager._stop_instance`.  When no tracked process exists the
source logs a warning and returns False before touching anything.  The
terminate/kill/wait sequence (`force` selects the signal, the wait timeout
escalates) is an OS effect with no further state distinction; afterwards the
tracking maps are cleared, the registry status set to "stopped" and the node
reservation released. -/
def stop_instance (m : ServiceManager) (inst : ServiceInstance) (force : Bool) :
    Bool × ServiceManager :=
  if m.processes.contains inst.id then
    let m1 := { m with running_instances := m.running_instances.filter (fun i => i ≠ inst.id)
                       processes := m.processes.filter (fun i => i ≠ inst.id)
                       instance_to_process :=
                         m.instance_to_process.filter (fun p => p.1 ≠ inst.id) }
    let m2 := { m1 with registry := update_instance_status m1.registry inst.id "stopped" }
    let m3 :=
      match inst.node_id with
      | some nid =>
        match get_service_definition m2.registry inst.name with
        | some service_def =>
            { m2 with scheduler := release_resources m2.scheduler nid service_def }
        | none => m2
      | none => m2
    (true, m3)
  else (false, m)

/-- Embeds `ServiceManager.stop_service`: resolve the target list (one id-addressed
instance, or all running instances of the service), then stop each;
succeeds when at least one stop succeeded. -/
def stop_service (m : ServiceManager) (service_name : String)
    (instance_id : Option String) (force : Bool) : Bool × ServiceManager :=
  let instances_to_stop :=
    match instance_id with
    | some iid =>
      match get_instance m.registry iid with
      | some inst => if inst.name = service_name then [inst] else []
      | none => []
    | none => (get_instances_by_name m.registry service_name).filter
        (fun i => i.status = "running")
  if instances_to_stop.isEmpty then (false, m)
  else
    let result := instances_to_stop.foldl
      (fun acc inst =>
        let r := stop_instance acc.2 inst force
        (if r.1 then acc.1 + 1 else acc.1, r.2))
      ((0 : ℕ), m)
    (decide (0 < result.1), result.2)

/-- The trigger-spec slice of a scheduled-task config dict as consumed by
`validate_scheduled_config` (src/core/decorators.py): the three trigger keys,
each either absent/None or carrying a value.  `interval` values are numbers
(the source additionally type-checks `isinstance(int, float)`, which the type
here makes implicit). -/
structure ScheduledTaskConfig where
  interval : Option ℚ := none
  cron : Option String := none
  at_time : Option String := none
deriving Repr, DecidableEq

/-- Python truthiness of `config.get('interval')`: present and non-zero. -/
def truthy_num : Option ℚ → Bool
  | none => false
  | some v => v != 0

/-- Python truthiness of a string-valued `config.get`: present and
non-empty. -/
def truthy_str : Option String → Bool
  | none => false
  | some s => s != ""

/-- Embeds `str.split()` with no separator: split on runs of whitespace, dropping
empty fields. -/
def split_ws_aux : List Char → List Char → List (List Char)
  | [], acc => if acc.isEmpty then [] else [acc.reverse]
  | c :: cs, acc =>
    if py_isspace c then
      if acc.isEmpty then split_ws_aux cs []
      else acc.reverse :: split_ws_aux cs []
    else split_ws_aux cs (c :: acc)

/-- Embeds `str.split()` on a string. -/
def py_split_ws (s : String) : List String :=
  (split_ws_aux s.data []).map (fun l => String.mk l)

/-- Embeds `str.split(':')`: split at every colon, keeping empty fields. -/
def split_colon : List Char → List (List Char)
  | [] => [[]]
  | c :: cs =>
    if c = ':' then [] :: split_colon cs
    else
      match split_colon cs with
      | t :: ts => (c :: t) :: ts
      | [] => [[c]]

/-- A run of one or two digits, as matched by the strptime directives `%H`
and `%M`. -/
def digit_run12 (l : List Char) : Bool :=
  !l.isEmpty && decide (l.length ≤ 2) && l.all Char.isDigit

/-- Numeric value of a digit run. -/
def digits_val (l : List Char) : ℕ :=
  l.foldl (fun a c => a * 10 + (c.toNat - 48)) 0

/-- Embeds `datetime.strptime(s, "%H:%M")` succeeds: one-or-two-digit hour ≤ 23, a
colon, one-or-two-digit minute ≤ 59, nothing left over. -/
def strptime_HM (s : String) : Bool :=
  match split_colon s.data with
  | [h, m] =>
      digit_run12 h && digit_run12 m && decide (digits_val h ≤ 23) &&
        decide (digits_val m ≤ 59)
  | _ => false

/-- Malformed-cron test of `validate_scheduled_config`: a truthy cron string
whose whitespace-split field count is not 5. -/
def cron_bad : Option String → Bool
  | some c => c != "" && (py_split_ws c).length != 5
  | none => false

/-- Malformed-at_time test: a truthy `at_time` that `strptime("%H:%M")`
rejects. -/
def at_time_bad : Option String → Bool
  | some a => a != "" && !(strptime_HM a)
  | none => false

/-- Malformed-interval test: a truthy interval that is not positive. -/
def interval_bad : Option ℚ → Bool
  | some v => v != 0 && decide (v ≤ 0)
  | none => false

/-- Embeds `validate_scheduled_config` (src/core/decorators.py): count the truthy
trigger fields (`if config.get(field)`), require exactly one, then check the
per-kind well-formedness of whichever fields are truthy. -/
def validate_scheduled_config (config : ScheduledTaskConfig) : Bool :=
  let provided_count :=
    (if truthy_num config.interval then 1 else 0) +
    (if truthy_str config.cron then 1 else 0) +
    (if truthy_str config.at_time then (1 : ℕ) else 0)
  if provided_count ≠ 1 then false
  else if cron_bad config.cron then false
  else if at_time_bad config.at_time then false
  else if interval_bad config.interval then false
  else true

/-! Concrete sample data used by witness theorems. -/

/-- The definition of concrete scenario A of the spec: `web-1`, 1 core,
256 MB, `max_instances` 1. -/
def web_def : ServiceDefinition :=
  { name := "web-1", cpu_cores := 1, memory_mb := 256, max_instances := 1 }

/-- A `web-1` instance currently in status "running". -/
def running_inst : ServiceInstance :=
  { name := "web-1", id := "inst_1", status := "running" }

/-- A manager with `web-1` registered and one running instance. -/
def demo_manager : ServiceManager :=
  { registry := { definitions := [("web-1", web_def)]
                  instances := [("inst_1", running_inst)] }
    scheduler := initial_scheduler }

/-- A small service definition needing 2 cores. -/
def svc_def : ServiceDefinition := { name := "svc-abc", cpu_cores := 2 }

/-- A manager with only `svc-abc` registered. -/
def svc_manager : ServiceManager :=
  { registry := { definitions := [("svc-abc", svc_def)] }
    scheduler := initial_scheduler }

/-- A `web-1` instance already stopped. -/
def stopped_inst : ServiceInstance :=
  { name := "web-1", id := "inst_1", status := "stopped" }

/-- A manager tracking no process, holding the stopped instance. -/
def stopped_manager : ServiceManager :=
  { registry := { instances := [("inst_1", stopped_inst)] }
    scheduler := initial_scheduler }

/-- A registry with one running instance whose last heartbeat is at time 0. -/
def hb_registry : InstanceRegistry :=
  { instances := [("inst_1", running_inst)], heartbeats := [("inst_1", 0)] }

/-! Association-list lemmas for the dict embedding. -/

theorem lookup_cons_eq {α : Type} (k : String) (v : α) (t : List (String × α)) :
    List.lookup k ((k, v) :: t) = some v := by
  simp [List.lookup]

theorem lookup_cons_ne {α : Type} (k a : String) (v : α) (t : List (String × α))
    (h : k ≠ a) : List.lookup k ((a, v) :: t) = List.lookup k t := by
  have hb : (k == a) = false := beq_eq_false_iff_ne.mpr h
  simp [List.lookup, hb]

theorem lookup_map_update {α : Type} (l : List (String × α)) (k : String) (f : α → α) :
    (l.map (fun p => if p.1 = k then (k, f p.2) else p)).lookup k = (l.lookup k).map f := by
  induction l with
  | nil => rfl
  | cons p t ih =>
    obtain ⟨a, b⟩ := p
    by_cases h : a = k
    · subst h
      simp [lookup_cons_eq]
    · rw [List.map_cons, if_neg (by simpa using h), lookup_cons_ne _ _ _ _ (Ne.symm h),
        lookup_cons_ne _ _ _ _ (Ne.symm h), ih]

theorem lookup_map_update_ne {α : Type} (l : List (String × α)) (k k' : String)
    (f : α → α) (hne : k' ≠ k) :
    (l.map (fun p => if p.1 = k then (k, f p.2) else p)).lookup k' = l.lookup k' := by
  induction l with
  | nil => rfl
  | cons p t ih =>
    obtain ⟨a, b⟩ := p
    by_cases h : a = k
    · subst h
      rw [List.map_cons, if_pos rfl, lookup_cons_ne _ _ _ _ hne,
        lookup_cons_ne _ _ _ _ hne, ih]
    · by_cases h2 : k' = a
      · subst h2
        rw [List.map_cons, if_neg (by simpa using h), lookup_cons_eq, lookup_cons_eq]
      · rw [List.map_cons, if_neg (by simpa using h), lookup_cons_ne _ _ _ _ h2,
          lookup_cons_ne _ _ _ _ h2, ih]

theorem lookup_map_cond {α : Type} (l : List (String × α)) (q : String → Bool)
    (f : α → α) (k : String) :
    (l.map (fun p => if q p.1 then (p.1, f p.2) else p)).lookup k
      = (l.lookup k).map (fun v => if q k then f v else v) := by
  induction l with
  | nil => rfl
  | cons p t ih =>
    obtain ⟨a, b⟩ := p
    by_cases h2 : k = a
    · subst h2
      cases hq : q k with
      | true => simp [hq, lookup_cons_eq]
      | false => simp [hq, lookup_cons_eq]
    · cases hq : q a with
      | true =>
        simp only [List.map_cons, Prod.fst, hq, if_pos rfl, if_true]
        rw [lookup_cons_ne _ _ _ _ h2, lookup_cons_ne _ _ _ _ h2, ih]
      | false =>
        simp only [List.map_cons]
        rw [if_neg (by simp [hq]), lookup_cons_ne _ _ _ _ h2,
          lookup_cons_ne _ _ _ _ h2, ih]

theorem lookup_filter_keyed {α : Type} (l : List (String × α)) (q : String → Bool)
    (k : String) :
    (l.filter (fun p => !(q p.1))).lookup k
      = if q k then none else l.lookup k := by
  induction l with
  | nil => simp [List.lookup]
  | cons p t ih =>
    obtain ⟨a, b⟩ := p
    by_cases h2 : k = a
    · subst h2
      cases hq : q k with
      | true =>
        rw [List.filter_cons_of_neg (by simp [hq])]
        simp [ih, hq]
      | false =>
        rw [List.filter_cons_of_pos (by simp [hq]), lookup_cons_eq, lookup_cons_eq]
        simp [hq]
    · cases hq : q a with
      | true =>
        rw [List.filter_cons_of_neg (by simp [hq]), ih, lookup_cons_ne _ _ _ _ h2]
      | false =>
        rw [List.filter_cons_of_pos (by simp [hq]), lookup_cons_ne _ _ _ _ h2, ih,
          lookup_cons_ne _ _ _ _ h2]

theorem lookup_append_right {α : Type} (l : List (String × α)) (k : String) (v : α)
    (h : ∀ p ∈ l, p.1 ≠ k) : List.lookup k (l ++ [(k, v)]) = some v := by
  induction l with
  | nil => simp [lookup_cons_eq]
  | cons p t ih =>
    obtain ⟨a, b⟩ := p
    rw [List.cons_append, lookup_cons_ne]
    · exact ih (fun q hq => h q (List.mem_cons_of_mem _ hq))
    · exact fun hc => h (a, b) (List.mem_cons_self _ _) (hc.symm)

theorem lookup_append_single_ne {α : Type} (l : List (String × α)) (k k' : String)
    (v : α) (hne : k' ≠ k) : List.lookup k' (l ++ [(k, v)]) = List.lookup k' l := by
  induction l with
  | nil => rw [List.nil_append, lookup_cons_ne _ _ _ _ hne]
  | cons p t ih =>
    obtain ⟨a, b⟩ := p
    by_cases h2 : k' = a
    · subst h2
      rw [List.cons_append, lookup_cons_eq, lookup_cons_eq]
    · rw [List.cons_append, lookup_cons_ne _ _ _ _ h2, lookup_cons_ne _ _ _ _ h2, ih]

theorem lookup_isSome_of_key {α : Type} (l : List (String × α)) (k : String)
    (h : ∃ p ∈ l, p.1 = k) : (l.lookup k).isSome := by
  obtain ⟨p, hp, hk⟩ := h
  induction l with
  | nil => cases hp
  | cons q t ih =>
    obtain ⟨a, b⟩ := q
    by_cases h2 : a = k
    · subst h2
      simp [lookup_cons_eq]
    · rw [lookup_cons_ne _ _ _ _ (Ne.symm h2)]
      rcases List.mem_cons.mp hp with h1 | h1
      · exact absurd (by rw [← hk, h1]) h2
      · exact ih h1

theorem lookup_dictSet_self {α : Type} (l : List (String × α)) (k : String) (v : α) :
    (dictSet l k v).lookup k = some v := by
  unfold dictSet
  by_cases h : ∃ p ∈ l, p.1 = k
  · rw [if_pos (by simpa [List.any_eq_true] using h)]
    have h1 : (l.map (fun p => if p.1 = k then (k, (fun _ : α => v) p.2) else p)).lookup k
        = (l.lookup k).map (fun _ => v) := lookup_map_update l k (fun _ => v)
    have h2 := lookup_isSome_of_key l k h
    rcases ho : l.lookup k with _ | w
    · rw [ho] at h2; cases h2
    · rw [ho] at h1
      simpa using h1
  · rw [if_neg (by simpa [List.any_eq_true] using h)]
    exact lookup_append_right l k v (fun p hp hc => h ⟨p, hp, hc⟩)

theorem lookup_dictSet_ne {α : Type} (l : List (String × α)) (k k' : String) (v : α)
    (hne : k' ≠ k) : (dictSet l k v).lookup k' = l.lookup k' := by
  unfold dictSet
  by_cases h : l.any (fun p => p.1 = k)
  · rw [if_pos (by simpa using h)]
    exact lookup_map_update_ne l k k' (fun _ => v) hne
  · rw [if_neg (by simpa using h)]
    exact lookup_append_single_ne l k k' v hne

theorem getD_mem {α : Type} : ∀ (l : List α) (i : ℕ) (d : α), i < l.length → l.getD i d ∈ l
  | [], i, _, h => absurd h (by simp)
  | a :: _, 0, d, _ => by simp
  | a :: t, i + 1, d, h => by
    rw [List.getD_cons_succ]
    exact List.mem_cons_of_mem a (getD_mem t i d (by simpa using h))

theorem headD_mem {α : Type} (l : List α) (d : α) (h : l ≠ []) : l.headD d ∈ l := by
  cases l with
  | nil => exact absurd rfl h
  | cons a t => simp [List.headD]

theorem lookup_of_mem_nodup {α : Type} (l : List (String × α)) (k : String) (v : α)
    (hnd : (l.map Prod.fst).Nodup) (hm : (k, v) ∈ l) : l.lookup k = some v := by
  induction l with
  | nil => cases hm
  | cons p t ih =>
    obtain ⟨a, b⟩ := p
    rcases List.mem_cons.mp hm with h1 | h1
    · rw [(Prod.mk.injEq _ _ _ _).mp h1.symm |>.1]
      rw [((Prod.mk.injEq _ _ _ _).mp h1.symm).2]
      exact lookup_cons_eq k v t
    · have hk : a ≠ k := by
        intro hc
        subst hc
        have : a ∈ t.map Prod.fst := List.mem_map.mpr ⟨(a, v), h1, rfl⟩
        exact (List.nodup_cons.mp (by simpa using hnd)).1 this
      rw [lookup_cons_ne _ _ _ _ (Ne.symm hk)]
      exact ih (List.nodup_cons.mp (by simpa using hnd)).2 h1

/-! Scheduler-level lemmas. -/

theorem check_node_available_headroom (n : NodeInfo) (d : ServiceDefinition)
    (h : check_node_available n d = true) :
    n.used_resources.cpu_cores + d.cpu_cores ≤ n.resources.total_cpu_cores.getD 0 ∧
    n.used_resources.memory_mb + d.memory_mb ≤ n.resources.total_memory_mb.getD 0 ∧
    n.used_resources.disk_mb + d.disk_mb ≤ n.resources.total_disk_mb.getD 0 ∧
    n.used_resources.gpu_count + d.gpu_count ≤ n.resources.gpu_count.getD 0 := by
  unfold check_node_available at h
  simp only [ServiceDefinition.get_resource_requirements] at h
  split_ifs at h with h1 h2 h3 h4 h5 h6
  exact ⟨by linarith [not_lt.mp h3], by linarith [not_lt.mp h4],
    by linarith [not_lt.mp h5], by linarith [not_lt.mp h6]⟩

theorem release_allocate_node (n : NodeInfo) (req : Resources)
    (h : n.used_resources.nonneg) : (n.allocate req).release req = n := by
  obtain ⟨av, lb, rs, u1, u2, u3, u4⟩ := n
  obtain ⟨h1, h2, h3, h4⟩ := h
  have e1 : max 0 (u1 + req.cpu_cores - req.cpu_cores) = u1 := by
    rw [add_sub_cancel_right]; exact max_eq_right h1
  have e2 : max 0 (u2 + req.memory_mb - req.memory_mb) = u2 := by
    rw [add_sub_cancel_right]; exact max_eq_right h2
  have e3 : max 0 (u3 + req.disk_mb - req.disk_mb) = u3 := by
    rw [add_sub_cancel_right]; exact max_eq_right h3
  have e4 : max 0 (u4 + req.gpu_count - req.gpu_count) = u4 := by
    rw [add_sub_cancel_right]; exact max_eq_right h4
  simp [NodeInfo.allocate, NodeInfo.release, e1, e2, e3, e4]
  exact ⟨h1, h2, h3, h4⟩

theorem map_update_id {α : Type} (l : List (String × α)) (k : String) (f : α → α)
    (h : ∀ p ∈ l, p.1 ≠ k) :
    l.map (fun p => if p.1 = k then (k, f p.2) else p) = l := by
  induction l with
  | nil => rfl
  | cons p t ih =>
    rw [List.map_cons, if_neg (h p (List.mem_cons_self p t)),
      ih (fun q hq => h q (List.mem_cons_of_mem p hq))]

theorem nodes_alloc_release (l : List (String × NodeInfo)) (nid : String)
    (req : Resources) (n : NodeInfo) (hnd : (l.map Prod.fst).Nodup)
    (hl : l.lookup nid = some n) (hn : n.used_resources.nonneg) :
    ((l.map (fun p => if p.1 = nid then (nid, p.2.allocate req) else p)).map
        (fun p => if p.1 = nid then (nid, p.2.release req) else p)) = l := by
  induction l with
  | nil => rfl
  | cons p t ih =>
    obtain ⟨a, b⟩ := p
    rw [List.map_cons] at hnd
    have hnd' := List.nodup_cons.mp hnd
    by_cases h : a = nid
    · subst h
      rw [lookup_cons_eq] at hl
      have hb : b = n := by injection hl
      subst hb
      rw [List.map_cons, if_pos rfl, List.map_cons, if_pos rfl,
        release_allocate_node b req hn]
      have ht : ∀ q ∈ t, q.1 ≠ a := by
        intro q hq hc
        exact hnd'.1 (by rw [← hc]; exact List.mem_map.mpr ⟨q, hq, rfl⟩)
      rw [map_update_id t a (fun x => NodeInfo.allocate x req) ht,
        map_update_id t a (fun x => NodeInfo.release x req) ht]
    · rw [List.map_cons, if_neg (by simpa using h), List.map_cons,
        if_neg (by simpa using h)]
      rw [lookup_cons_ne _ _ _ _ (Ne.symm h)] at hl
      rw [ih hnd'.2 hl]

theorem release_allocate_state (s : SimpleScheduler) (nid : String)
    (d : ServiceDefinition) (n : NodeInfo) (hnd : (s.nodes.map Prod.fst).Nodup)
    (hl : s.nodes.lookup nid = some n) (hn : n.used_resources.nonneg) :
    release_resources (allocate_resources s nid d) nid d = s := by
  obtain ⟨nodes, strat⟩ := s
  have hnd2 : (nodes.map Prod.fst).Nodup := hnd
  have hl2 : nodes.lookup nid = some n := hl
  have hnodes := nodes_alloc_release nodes nid d.get_resource_requirements n hnd2 hl2 hn
  unfold release_resources allocate_resources
  dsimp only
  rw [lookup_map_update nodes nid (fun x => NodeInfo.allocate x d.get_resource_requirements),
    hl2]
  rw [if_neg (by simp)]
  rw [hnodes]

theorem foldl_fst_mem {β : Type} (f : (String × β) → String → (String × β))
    (hf : ∀ acc x, (f acc x).1 = x ∨ (f acc x).1 = acc.1) :
    ∀ (xs : List String) (acc : String × β) (S : List String),
      acc.1 ∈ S → (∀ x ∈ xs, x ∈ S) → (xs.foldl f acc).1 ∈ S := by
  intro xs
  induction xs with
  | nil => exact fun acc S h1 _ => h1
  | cons x t ih =>
    intro acc S h1 h2
    rw [List.foldl_cons]
    refine ih (f acc x) S ?_ (fun y hy => h2 y (List.mem_cons_of_mem x hy))
    rcases hf acc x with h | h
    · rw [h]; exact h2 x (List.mem_cons_self x t)
    · rw [h]; exact h1

theorem least_loaded_select_mem (s : SimpleScheduler) (nodes : List String)
    (h : nodes ≠ []) : least_loaded_select s nodes ∈ nodes := by
  unfold least_loaded_select
  apply foldl_fst_mem _ _ nodes _ nodes (headD_mem nodes "" h) (fun x hx => hx)
  intro acc x
  obtain ⟨a, macc⟩ := acc
  cases macc with
  | none => left; rfl
  | some m =>
    dsimp only
    by_cases hlt : node_cpu_load ((s.nodes.lookup x).getD {}) < m
    · rw [if_pos hlt]
      left
      rfl
    · rw [if_neg hlt]
      right
      rfl

theorem suitable_lookup (s : SimpleScheduler) (d : ServiceDefinition) (nid : String)
    (hnd : (s.nodes.map Prod.fst).Nodup) (hm : nid ∈ find_suitable_nodes s d) :
    ∃ n, s.nodes.lookup nid = some n ∧ check_node_available n d = true := by
  unfold find_suitable_nodes at hm
  obtain ⟨p, hp, hpk⟩ := List.mem_map.mp hm
  obtain ⟨a, b⟩ := p
  have hpf := List.mem_filter.mp hp
  subst hpk
  exact ⟨b, lookup_of_mem_nodup s.nodes a b hnd hpf.1, by simpa using hpf.2⟩

theorem schedule_error_spec (s : SimpleScheduler) (d : ServiceDefinition)
    (nq : Option String) (ri mv : ℕ) (e : Exc)
    (h : (schedule s d nq ri mv).1 = .error e) :
    e.is_scheduler_error = true ∧ (schedule s d nq ri mv).2 = s := by
  unfold schedule at h ⊢
  cases nq with
  | some nid0 =>
    rcases hl : s.nodes.lookup nid0 with _ | n
    · simp only [hl] at h ⊢
      simp at h
      exact ⟨by rw [← h]; rfl, by trivial⟩
    · simp only [hl] at h ⊢
      by_cases hc : check_node_available n d = true
      · rw [hc] at h
        simp at h
      · rw [Bool.not_eq_true] at hc
        rw [hc] at h ⊢
        simp at h
        exact ⟨by rw [← h]; rfl, by trivial⟩
  | none =>
    by_cases he : (find_suitable_nodes s d).isEmpty
    · simp only [he] at h ⊢
      simp at h
      exact ⟨by rw [← h]; rfl, by trivial⟩
    · rw [Bool.not_eq_true] at he
      simp only [he] at h ⊢
      simp at h

theorem schedule_ok_spec (s : SimpleScheduler) (d : ServiceDefinition)
    (nq : Option String) (ri mv : ℕ) (nid : String) (info : NodeInfo)
    (hnd : (s.nodes.map Prod.fst).Nodup)
    (h : (schedule s d nq ri mv).1 = .ok (nid, info)) :
    ∃ n, s.nodes.lookup nid = some n ∧ check_node_available n d = true ∧
      (schedule s d nq ri mv).2 = allocate_resources s nid d := by
  unfold schedule at h ⊢
  cases nq with
  | some nid0 =>
    rcases hl : s.nodes.lookup nid0 with _ | n
    · simp only [hl] at h
      simp at h
    · simp only [hl] at h ⊢
      by_cases hc : check_node_available n d = true
      · rw [hc] at h ⊢
        simp only [Bool.not_true, Bool.false_eq_true, if_false] at h ⊢
        simp only [Prod.fst, Except.ok.injEq, Prod.mk.injEq] at h
        obtain ⟨h1, _⟩ := h
        subst h1
        exact ⟨n, hl, hc, rfl⟩
      · rw [Bool.not_eq_true] at hc
        rw [hc] at h
        simp at h
  | none =>
    by_cases he : (find_suitable_nodes s d).isEmpty
    · simp only [he] at h
      simp at h
    · rw [Bool.not_eq_true] at he
      simp only [he] at h ⊢
      simp only [Bool.false_eq_true, if_false] at h ⊢
      have hne : find_suitable_nodes s d ≠ [] := by
        intro hc
        rw [hc] at he
        simp at he
      have hpos : 0 < (find_suitable_nodes s d).length := List.length_pos.mpr hne
      simp only [Prod.fst, Except.ok.injEq, Prod.mk.injEq] at h
      obtain ⟨h1, _⟩ := h
      have hmem : nid ∈ find_suitable_nodes s d := by
        rw [← h1]
        by_cases hs1 : s.strategy = "random"
        · rw [if_pos hs1]
          exact getD_mem _ _ _ (Nat.mod_lt _ hpos)
        · rw [if_neg hs1]
          by_cases hs2 : s.strategy = "round_robin"
          · rw [if_pos hs2]
            unfold round_robin_select
            exact getD_mem _ _ _ (Nat.mod_lt _ hpos)
          · rw [if_neg hs2]
            by_cases hs3 : s.strategy = "least_loaded"
            · rw [if_pos hs3]
              exact least_loaded_select_mem s _ hne
            · rw [if_neg hs3]
              exact headD_mem _ _ hne
      obtain ⟨n, hn1, hn2⟩ := suitable_lookup s d nid hnd hmem
      exact ⟨n, hn1, hn2, by rw [← h1]⟩

theorem lookup_mem {α : Type} (l : List (String × α)) (k : String) (v : α)
    (h : l.lookup k = some v) : (k, v) ∈ l := by
  induction l with
  | nil => cases h
  | cons p t ih =>
    obtain ⟨a, b⟩ := p
    by_cases hk : k = a
    · subst hk
      rw [lookup_cons_eq] at h
      have hb : b = v := by injection h
      subst hb
      exact List.mem_cons_self _ _
    · rw [lookup_cons_ne _ _ _ _ hk] at h
      exact List.mem_cons_of_mem _ (ih h)

/-! Claim theorems. -/

/-- C1: whenever `schedule` selects a node — requested explicitly or chosen
by the strategy — the admission test guarantees that after the allocation
every resource dimension of that node satisfies `used ≤ total` (equivalently,
no dimension has negative headroom post-allocation). -/
theorem c1_admission_correctness (s : SimpleScheduler) (d : ServiceDefinition)
    (nq : Option String) (ri mv : ℕ) (nid : String) (info : NodeInfo)
    (hnd : (s.nodes.map Prod.fst).Nodup)
    (h : (schedule s d nq ri mv).1 = .ok (nid, info)) :
    ∃ n', ((schedule s d nq ri mv).2).nodes.lookup nid = some n' ∧
      n'.used_resources.cpu_cores ≤ n'.resources.total_cpu_cores.getD 0 ∧
      n'.used_resources.memory_mb ≤ n'.resources.total_memory_mb.getD 0 ∧
      n'.used_resources.disk_mb ≤ n'.resources.total_disk_mb.getD 0 ∧
      n'.used_resources.gpu_count ≤ n'.resources.gpu_count.getD 0 := by
  obtain ⟨n, hl, hc, hstate⟩ := schedule_ok_spec s d nq ri mv nid info hnd h
  obtain ⟨e1, e2, e3, e4⟩ := check_node_available_headroom n d hc
  refine ⟨n.allocate d.get_resource_requirements, ?_, ?_, ?_, ?_, ?_⟩
  · rw [hstate]
    unfold allocate_resources
    dsimp only
    rw [lookup_map_update s.nodes nid
      (fun x => NodeInfo.allocate x d.get_resource_requirements), hl]
    rfl
  · simpa [NodeInfo.allocate, ServiceDefinition.get_resource_requirements] using e1
  · simpa [NodeInfo.allocate, ServiceDefinition.get_resource_requirements] using e2
  · simpa [NodeInfo.allocate, ServiceDefinition.get_resource_requirements] using e3
  · simpa [NodeInfo.allocate, ServiceDefinition.get_resource_requirements] using e4

/-- C1 witness: requesting the "local" node of the initial table for a
definition needing 3 cores succeeds and leaves `used ≤ total` in all four
dimensions. -/
theorem c1_admission_correctness_witness :
    ∃ n', ((schedule initial_scheduler
        { name := "svc-a", cpu_cores := 3, memory_mb := 256, disk_mb := 10, gpu_count := 0 }
        (some "local") 0 0).2).nodes.lookup "local" = some n' ∧
      n'.used_resources.cpu_cores ≤ n'.resources.total_cpu_cores.getD 0 ∧
      n'.used_resources.memory_mb ≤ n'.resources.total_memory_mb.getD 0 ∧
      n'.used_resources.disk_mb ≤ n'.resources.total_disk_mb.getD 0 ∧
      n'.used_resources.gpu_count ≤ n'.resources.gpu_count.getD 0 :=
  c1_admission_correctness initial_scheduler
    { name := "svc-a", cpu_cores := 3, memory_mb := 256, disk_mb := 10, gpu_count := 0 }
    (some "local") 0 0 "local"
    (local_node.allocate (ServiceDefinition.get_resource_requirements
      { name := "svc-a", cpu_cores := 3, memory_mb := 256, disk_mb := 10, gpu_count := 0 }))
    (by decide)
    (by norm_num [schedule, initial_scheduler, local_node, check_node_available,
      check_labels_match, ServiceDefinition.get_resource_requirements, allocate_resources,
      NodeInfo.allocate, List.lookup])

/-- C2: allocating a definition's requirements on a node present in the
table and then releasing them restores the whole scheduler state — in
particular every dimension of that node's `used_resources` — provided the
node's used ledger was component-wise non-negative beforehand (release
floors at zero per component). -/
theorem c2_resource_conservation (s : SimpleScheduler) (nid : String)
    (d : ServiceDefinition) (n : NodeInfo)
    (hnd : (s.nodes.map Prod.fst).Nodup)
    (hl : s.nodes.lookup nid = some n)
    (hn : n.used_resources.nonneg) :
    release_resources (allocate_resources s nid d) nid d = s :=
  release_allocate_state s nid d n hnd hl hn

/-- C2 witness: allocate-then-release of a concrete definition on the
initial "local" node is the identity. -/
theorem c2_resource_conservation_witness :
    release_resources (allocate_resources initial_scheduler "local"
        { name := "svc-a", cpu_cores := 3 }) "local"
        { name := "svc-a", cpu_cores := 3 } = initial_scheduler :=
  c2_resource_conservation initial_scheduler "local" { name := "svc-a", cpu_cores := 3 }
    local_node (by decide) (by decide) (by norm_num [local_node, Resources.nonneg])

/-- C5: with an explicitly requested node, only that node's table entry
determines the outcome; a missing node raises `SchedulerError`, a node
failing the admission test raises `NoAvailableNode` — both are scheduler
errors per the exception hierarchy — and in either failure case the
scheduler state (hence every node's resources) is left unchanged. -/
theorem schedule_requested_found (s : SimpleScheduler) (d : ServiceDefinition)
    (nid : String) (ri mv : ℕ) (n : NodeInfo) (hl : s.nodes.lookup nid = some n) :
    schedule s d (some nid) ri mv
      = if check_node_available n d then
          (.ok (nid, ((allocate_resources s nid d).nodes.lookup nid).getD n),
            allocate_resources s nid d)
        else (.error .noAvailableNode, s) := by
  unfold schedule
  try dsimp only
  rw [hl]
  try dsimp only
  by_cases hc : check_node_available n d = true
  · rw [hc]
    simp
  · rw [Bool.not_eq_true] at hc
    rw [hc]
    simp

theorem c5_requested_node (s : SimpleScheduler) (d : ServiceDefinition)
    (nid : String) (ri mv : ℕ) :
    (s.nodes.lookup nid = none →
      schedule s d (some nid) ri mv
        = (.error (.schedulerError ("节点不存在: " ++ nid)), s) ∧
      (Exc.schedulerError ("节点不存在: " ++ nid)).is_scheduler_error = true) ∧
    (∀ n, s.nodes.lookup nid = some n → check_node_available n d = false →
      schedule s d (some nid) ri mv = (.error .noAvailableNode, s) ∧
      Exc.noAvailableNode.is_scheduler_error = true) ∧
    (∀ s₂ : SimpleScheduler, s.nodes.lookup nid = s₂.nodes.lookup nid →
      (schedule s d (some nid) ri mv).1 = (schedule s₂ d (some nid) ri mv).1) := by
  refine ⟨?_, ?_, ?_⟩
  · intro hl
    unfold schedule
    try dsimp only
    rw [hl]
    exact ⟨rfl, rfl⟩
  · intro n hl hc
    rw [schedule_requested_found s d nid ri mv n hl, if_neg (by simp [hc])]
    exact ⟨rfl, rfl⟩
  · intro s₂ hagree
    have hl2 := hagree
    rcases hl : s.nodes.lookup nid with _ | n
    · rw [hl] at hl2
      unfold schedule
      try dsimp only
      rw [hl, ← hl2]
    · rw [hl] at hl2
      rw [schedule_requested_found s d nid ri mv n hl,
        schedule_requested_found s₂ d nid ri mv n hl2.symm]
      by_cases hc : check_node_available n d = true
      · rw [if_pos hc, if_pos hc]
        try dsimp only
        unfold allocate_resources
        try dsimp only
        rw [lookup_map_update s.nodes nid
            (fun x => NodeInfo.allocate x d.get_resource_requirements), hl,
          lookup_map_update s₂.nodes nid
            (fun x => NodeInfo.allocate x d.get_resource_requirements), hl2.symm]
      · rw [if_neg hc, if_neg hc]

/-- C5 witness: requesting the unknown node "ghost" raises the
scheduler-error with the untouched state; requesting "local" for an
over-sized definition raises `NoAvailableNode` with the untouched state. -/
theorem c5_requested_node_witness :
    (schedule initial_scheduler { name := "svc-a", cpu_cores := 1 } (some "ghost") 0 0
      = (.error (.schedulerError ("节点不存在: " ++ "ghost")), initial_scheduler)) ∧
    (schedule initial_scheduler { name := "svc-a", cpu_cores := 9 } (some "local") 0 0
      = (.error .noAvailableNode, initial_scheduler)) :=
  ⟨((c5_requested_node initial_scheduler { name := "svc-a", cpu_cores := 1 }
      "ghost" 0 0).1 (by decide)).1,
   ((c5_requested_node initial_scheduler { name := "svc-a", cpu_cores := 9 }
      "local" 0 0).2.1 local_node (by decide)
      (by norm_num [check_node_available, local_node, check_labels_match,
        ServiceDefinition.get_resource_requirements])).1⟩

/-- C10: `add_node` stores the node with an all-zero `used_resources`
ledger, silently overwriting any entry under the same id (so re-adding an
existing node erases its current resource accounting), and leaves every
other entry and the strategy unchanged. -/
theorem c10_add_node_zeroes_ledger (s : SimpleScheduler) (nid : String)
    (attrs : NodeAttrs) :
    ((add_node s nid attrs).nodes.lookup nid
      = some { available := attrs.available, labels := attrs.labels,
               resources := attrs.resources,
               used_resources :=
                 { cpu_cores := 0, memory_mb := 0, disk_mb := 0, gpu_count := 0 } }) ∧
    (∀ k, k ≠ nid → (add_node s nid attrs).nodes.lookup k = s.nodes.lookup k) ∧
    (add_node s nid attrs).strategy = s.strategy := by
  refine ⟨?_, ?_, rfl⟩
  · unfold add_node
    dsimp only
    exact lookup_dictSet_self s.nodes nid _
  · intro k hk
    unfold add_node
    dsimp only
    exact lookup_dictSet_ne s.nodes nid k _ hk

/-- C10 witness: overwriting the "local" node — whose ledger is loaded by a
prior allocation — re-zeroes its `used_resources`. -/
theorem c10_add_node_zeroes_ledger_witness :
    ((add_node (allocate_resources initial_scheduler "local" { name := "svc-a", cpu_cores := 3 })
        "local" { available := some true }).nodes.lookup "local"
      = some { available := some true, labels := [], resources := {},
               used_resources :=
                 { cpu_cores := 0, memory_mb := 0, disk_mb := 0, gpu_count := 0 } }) ∧
    (add_node (allocate_resources initial_scheduler "local" { name := "svc-a", cpu_cores := 3 })
        "local" { available := some true }).strategy = "random" :=
  ⟨(c10_add_node_zeroes_ledger
      (allocate_resources initial_scheduler "local" { name := "svc-a", cpu_cores := 3 })
      "local" { available := some true }).1,
   (c10_add_node_zeroes_ledger
      (allocate_resources initial_scheduler "local" { name := "svc-a", cpu_cores := 3 })
      "local" { available := some true }).2.2⟩

theorem validate_service_name_shape (s : String) (e : Exc)
    (h : validate_service_name s = some e) : ∃ nm, e = .invalidServiceName nm := by
  unfold validate_service_name at h
  split_ifs at h
  · exact ⟨"", by injection h with h2; exact h2.symm⟩
  · exact ⟨s, by injection h with h2; exact h2.symm⟩
  · exact ⟨s, by injection h with h2; exact h2.symm⟩

/-- C4: with `max_instances > 0`, `start_service` raises the already-running
error as soon as the count of the service's `running` instances reaches
`max_instances`, before touching any state (the returned manager equals the
input); with `max_instances = 0` the check never produces an already-running
error, whatever the rest of the call does. -/
theorem c4_max_instances (m : ServiceManager) (service_name : String)
    (d : ServiceDefinition) (nq : Option String) (auto : Bool) (fid : String)
    (launch : LaunchOutcome) (ri mv : ℕ)
    (hv : validate_service_name service_name = none)
    (hd : get_service_definition m.registry service_name = some d) :
    (0 < d.max_instances →
      d.max_instances ≤ (running_count m.registry service_name : ℤ) →
      start_service m service_name nq auto fid launch ri mv
        = (.error (.serviceAlreadyRunning service_name
            ("已达到最大实例数: " ++ toString d.max_instances)), m)) ∧
    (d.max_instances = 0 →
      ∀ sn iid, (start_service m service_name nq auto fid launch ri mv).1
        ≠ .error (.serviceAlreadyRunning sn iid)) := by
  have hreg : is_service_registered m.registry service_name = true := by
    have hd2 := hd
    unfold get_service_definition at hd2
    unfold is_service_registered
    rw [hd2]
    rfl
  constructor
  · intro h1 h2
    unfold start_service
    rw [hv]
    try dsimp only
    rw [if_neg (by simp [hreg]), hd]
    try dsimp only
    rw [if_pos ⟨h1, h2⟩]
  · intro h0 sn iid
    unfold start_service
    rw [hv]
    try dsimp only
    rw [if_neg (by simp [hreg]), hd]
    try dsimp only
    rw [if_neg (by rw [h0]; rintro ⟨hlt, _⟩; exact lt_irrefl 0 hlt)]
    rcases hs : schedule m.scheduler d nq ri mv with ⟨r, s'⟩
    rcases r with e | ⟨nid, info⟩
    · try dsimp only
      intro heq
      have he : e = .serviceAlreadyRunning sn iid := by injection heq
      have hsp := (schedule_error_spec m.scheduler d nq ri mv e (by rw [hs])).1
      rw [he] at hsp
      simp [Exc.is_scheduler_error] at hsp
    · try dsimp only
      cases launch <;> simp [start_local_service]

/-- C4 witness: concrete scenario A — with `web-1` registered at
`max_instances = 1` and one `running` instance, a second start raises the
already-running error and leaves the manager untouched. -/
theorem c4_max_instances_witness :
    start_service demo_manager "web-1" none false "inst_2" (.ok 41) 0 0
      = (.error (.serviceAlreadyRunning "web-1"
          ("已达到最大实例数: " ++ toString (1 : ℤ))), demo_manager) :=
  (c4_max_instances demo_manager "web-1" web_def none false "inst_2" (.ok 41) 0 0
    (by decide) (by decide)).1 (by decide)
    (by norm_num [running_count, get_instances_by_name, demo_manager, running_inst, web_def])

/-- C3: whenever `start_service` fails with a start error after the
scheduler reserved a node (the process-launch failure path), the reservation
is released before the error propagates: the scheduler — every node's
`used_resources` — is back to its pre-call state (given the well-formed
ledger: unique node ids, non-negative used resources). -/
theorem c3_release_on_start_failure (m : ServiceManager) (service_name : String)
    (nq : Option String) (auto : Bool) (fid : String) (launch : LaunchOutcome)
    (ri mv : ℕ) (msg : String)
    (hnd : (m.scheduler.nodes.map Prod.fst).Nodup)
    (hnn : ∀ p ∈ m.scheduler.nodes, p.2.used_resources.nonneg)
    (h : (start_service m service_name nq auto fid launch ri mv).1
        = .error (.serviceStartError service_name msg)) :
    (start_service m service_name nq auto fid launch ri mv).2.scheduler
      = m.scheduler := by
  unfold start_service at h ⊢
  rcases hv : validate_service_name service_name with _ | e
  · rw [hv] at h
    try dsimp only at h
    try dsimp only
    by_cases hcond : (!(is_service_registered m.registry service_name) &&
        !(auto && (discover_service m service_name).isSome)) = true
    · rw [if_pos hcond]
    · rw [if_neg hcond] at h ⊢
      rcases hdl : get_service_definition m.registry service_name with _ | d
      · rw [hdl] at h
        try dsimp only
      · rw [hdl] at h
        try dsimp only at h
        try dsimp only
        by_cases hmi : 0 < d.max_instances ∧
            d.max_instances ≤ (running_count m.registry service_name : ℤ)
        · rw [if_pos hmi]
        · rw [if_neg hmi] at h ⊢
          rcases hs : schedule m.scheduler d nq ri mv with ⟨r, s'⟩
          rw [hs] at h
          rcases r with e | ⟨nid, info⟩
          · try dsimp only at h
            try dsimp only
            have he : e = .serviceStartError service_name msg := by injection h
            have hsp := (schedule_error_spec m.scheduler d nq ri mv e (by rw [hs])).1
            rw [he] at hsp
            simp [Exc.is_scheduler_error] at hsp
          · obtain ⟨n, hln, hchk, hstate⟩ :=
              schedule_ok_spec m.scheduler d nq ri mv nid info hnd (by rw [hs])
            have hs2 : s' = allocate_resources m.scheduler nid d := by
              rw [hs] at hstate
              exact hstate
            have hnneg : n.used_resources.nonneg :=
              hnn (nid, n) (lookup_mem m.scheduler.nodes nid n hln)
            try dsimp only at h
            try dsimp only
            cases launch with
            | ok pid => simp [start_local_service] at h
            | popenRaise pmsg =>
              simp only [start_local_service]
              try dsimp only
              rw [hs2]
              exact release_allocate_state m.scheduler nid d n hnd hln hnneg
            | immediateExit pid log_tail =>
              simp only [start_local_service]
              try dsimp only
              rw [hs2]
              exact release_allocate_state m.scheduler nid d n hnd hln hnneg
  · rfl

/-- C3 witness: with `svc-abc` registered and the launch raising, the start
error propagates and the loaded scheduler is exactly restored. -/
theorem c3_release_on_start_failure_witness :
    (start_service svc_manager "svc-abc" (some "local") false "inst_9"
        (.popenRaise "boom") 0 0).2.scheduler = initial_scheduler :=
  c3_release_on_start_failure svc_manager "svc-abc" (some "local") false "inst_9"
    (.popenRaise "boom") 0 0 "boom"
    (by decide)
    (by norm_num [svc_manager, initial_scheduler, local_node, Resources.nonneg])
    (by
      have hval : validate_service_name "svc-abc" = none := by decide
      unfold start_service
      rw [hval]
      norm_num [svc_manager, svc_def, is_service_registered, get_service_definition,
        running_count, get_instances_by_name, schedule, initial_scheduler, local_node,
        check_node_available, check_labels_match,
        ServiceDefinition.get_resource_requirements, allocate_resources,
        NodeInfo.allocate, List.lookup, start_local_service, Exc.py_str])

/-- C7: stopping an instance with no tracked OS process returns false and
mutates nothing — neither the registry, the process maps, nor the node
ledgers — and an id-addressed `stop_service` on such an instance likewise
returns false with the manager untouched; no error is raised. -/
theorem c7_idempotent_stop (m : ServiceManager) (service_name iid : String)
    (inst : ServiceInstance) (force : Bool) :
    (m.processes.contains inst.id = false →
      stop_instance m inst force = (false, m)) ∧
    ((∀ i, get_instance m.registry iid = some i → m.processes.contains i.id = false) →
      stop_service m service_name (some iid) force = (false, m)) := by
  constructor
  · intro h
    unfold stop_instance
    rw [if_neg (by rw [h]; simp)]
  · intro h
    unfold stop_service
    try dsimp only
    rcases hg : get_instance m.registry iid with _ | i
    · try dsimp only
      simp
    · try dsimp only
      by_cases hn : i.name = service_name
      · rw [if_pos hn]
        have hsi : stop_instance m i force = (false, m) := by
          unfold stop_instance
          rw [if_neg (by rw [h i hg]; simp)]
        simp [hsi]
      · rw [if_neg hn]
        simp

/-- C7 witness: on a concrete manager tracking no process, both the direct
`stop_instance` of the stopped instance and the id-addressed `stop_service`
return false and leave the manager unchanged. -/
theorem c7_idempotent_stop_witness :
    (stop_instance stopped_manager stopped_inst false = (false, stopped_manager)) ∧
    (stop_service stopped_manager "web-1" (some "inst_1") false
      = (false, stopped_manager)) :=
  ⟨(c7_idempotent_stop stopped_manager "web-1" "inst_1" stopped_inst false).1 (by decide),
   (c7_idempotent_stop stopped_manager "web-1" "inst_1" stopped_inst false).2
     (by decide)⟩

/-- C6: one pass of the heartbeat checker transitions a `running` instance
whose heartbeat is older than `3 × heartbeatInterval` to `error`, drops its
heartbeat entry, keeps it registered (still queryable), and a second pass at
any later time leaves it unchanged — the transition happens exactly once and
needs no external intervention. -/
theorem c6_heartbeat_timeout (r : InstanceRegistry) (now hb_interval now2 : ℚ)
    (iid : String) (inst : ServiceInstance) (t : ℚ)
    (hi : r.instances.lookup iid = some inst)
    (hrun : inst.status = "running")
    (hhb : r.heartbeats.lookup iid = some t)
    (hstale : 3 * hb_interval < now - t) :
    ((check_heartbeats r now hb_interval).instances.lookup iid
        = some { inst with status := "error" }) ∧
    ((check_heartbeats r now hb_interval).heartbeats.lookup iid = none) ∧
    ((check_heartbeats (check_heartbeats r now hb_interval) now2
        hb_interval).instances.lookup iid = some { inst with status := "error" }) := by
  have hq : instance_stale r now hb_interval iid = true := by
    unfold instance_stale
    rw [hi, hhb]
    simp [hrun, hstale]
  have h1 : (check_heartbeats r now hb_interval).instances.lookup iid
      = some { inst with status := "error" } := by
    unfold check_heartbeats
    try dsimp only
    rw [lookup_map_cond r.instances (instance_stale r now hb_interval)
      (fun v => { v with status := "error" }) iid, hi]
    simp [hq]
  have h2 : (check_heartbeats r now hb_interval).heartbeats.lookup iid = none := by
    unfold check_heartbeats
    try dsimp only
    rw [lookup_filter_keyed r.heartbeats (instance_stale r now hb_interval) iid,
      if_pos hq]
  refine ⟨h1, h2, ?_⟩
  set r2 := check_heartbeats r now hb_interval with hr2
  have hq2 : instance_stale r2 now2 hb_interval iid = false := by
    unfold instance_stale
    rw [h1, h2]
  unfold check_heartbeats
  try dsimp only
  rw [lookup_map_cond r2.instances (instance_stale r2 now2 hb_interval)
    (fun v => { v with status := "error" }) iid, h1]
  simp [hq2]

/-- C6 witness: at time 100 with a 5-second interval, the instance whose
last heartbeat was at time 0 is degraded to `error` exactly once and its
heartbeat entry dropped. -/
theorem c6_heartbeat_timeout_witness :
    ((check_heartbeats hb_registry 100 5).instances.lookup "inst_1"
        = some { running_inst with status := "error" }) ∧
    ((check_heartbeats hb_registry 100 5).heartbeats.lookup "inst_1" = none) ∧
    ((check_heartbeats (check_heartbeats hb_registry 100 5) 200 5).instances.lookup
        "inst_1" = some { running_inst with status := "error" }) :=
  c6_heartbeat_timeout hb_registry 100 5 200 "inst_1" running_inst 0
    (by decide) (by decide) (by norm_num [hb_registry, List.lookup]) (by norm_num)

theorem count_one_iff (x y z : Bool) :
    ((if x then 1 else 0) + (if y then 1 else 0) + (if z then (1 : ℕ) else 0) = 1) ↔
      ((x = true ∧ y = false ∧ z = false) ∨ (x = false ∧ y = true ∧ z = false) ∨
       (x = false ∧ y = false ∧ z = true)) := by
  cases x <;> cases y <;> cases z <;> simp

theorem validate_eq_true_iff (cfg : ScheduledTaskConfig) :
    validate_scheduled_config cfg = true ↔
      ((if truthy_num cfg.interval then 1 else 0) +
        (if truthy_str cfg.cron then 1 else 0) +
        (if truthy_str cfg.at_time then (1 : ℕ) else 0) = 1) ∧
      cron_bad cfg.cron = false ∧ at_time_bad cfg.at_time = false ∧
      interval_bad cfg.interval = false := by
  unfold validate_scheduled_config
  try dsimp only
  split_ifs with h1 h2 h3 h4 <;> simp_all

theorem cron_bad_false_iff (c : Option String) :
    cron_bad c = false ↔ (∀ s, c = some s → s ≠ "" → (py_split_ws s).length = 5) := by
  rcases c with _ | s
  · simp [cron_bad]
  · by_cases hs : s = ""
    · simp [cron_bad, hs]
    · simp [cron_bad, hs]

theorem at_time_bad_false_iff (a : Option String) :
    at_time_bad a = false ↔ (∀ s, a = some s → s ≠ "" → strptime_HM s = true) := by
  rcases a with _ | s
  · simp [at_time_bad]
  · by_cases hs : s = ""
    · simp [at_time_bad, hs]
    · simp [at_time_bad, hs]

theorem interval_bad_false_iff (i : Option ℚ) :
    interval_bad i = false ↔ (∀ v, i = some v → v ≠ 0 → 0 < v) := by
  rcases i with _ | v
  · simp [interval_bad]
  · by_cases hv : v = 0
    · simp [interval_bad, hv]
    · simp [interval_bad, hv, not_le]

/-- C8 (amended): `validate_scheduled_config` accepts a trigger spec iff
exactly one of the three trigger fields is truthy in Python's sense
(non-None and non-zero / non-empty), any truthy cron has exactly five
whitespace-separated fields, any truthy `at_time` parses as `%H:%M`, and any
truthy interval is positive.  A field holding a falsy value (interval 0, an
empty string) counts as unset. -/
theorem c8_trigger_validation (cfg : ScheduledTaskConfig) :
    validate_scheduled_config cfg = true ↔
      (((truthy_num cfg.interval = true ∧ truthy_str cfg.cron = false ∧
           truthy_str cfg.at_time = false) ∨
        (truthy_num cfg.interval = false ∧ truthy_str cfg.cron = true ∧
           truthy_str cfg.at_time = false) ∨
        (truthy_num cfg.interval = false ∧ truthy_str cfg.cron = false ∧
           truthy_str cfg.at_time = true)) ∧
       (∀ c, cfg.cron = some c → c ≠ "" → (py_split_ws c).length = 5) ∧
       (∀ a, cfg.at_time = some a → a ≠ "" → strptime_HM a = true) ∧
       (∀ v, cfg.interval = some v → v ≠ 0 → 0 < v)) := by
  rw [validate_eq_true_iff, count_one_iff, cron_bad_false_iff, at_time_bad_false_iff,
    interval_bad_false_iff]

/-- C8 counterexample: a spec with TWO trigger kinds set — `interval = 0`
together with a well-formed cron — is accepted, because the truthiness test
treats `interval = 0` as unset; the claim as stated requires it to be
rejected. -/
theorem c8_counterexample :
    (({ interval := some 0, cron := some "0 9 * * *" } : ScheduledTaskConfig).interval
       ≠ none) ∧
    (({ interval := some 0, cron := some "0 9 * * *" } : ScheduledTaskConfig).cron
       ≠ none) ∧
    validate_scheduled_config { interval := some 0, cron := some "0 9 * * *" } = true := by
  refine ⟨by simp, by simp, by decide⟩

/-- C8 witness: a plain 5-second interval spec is accepted. -/
theorem c8_trigger_validation_witness :
    validate_scheduled_config { interval := some 5 } = true :=
  (c8_trigger_validation { interval := some 5 }).mpr
    (by
      norm_num [truthy_num, truthy_str]
      exact ⟨fun c hc => Option.noConfusion hc, fun a ha => Option.noConfusion ha⟩)

theorem regex_name_match_iff (l : List Char) :
    regex_name_match l = true ↔
      ((l ≠ [] ∧ ∀ ch ∈ l, allowed_name_char ch = true) ∨
       (∃ t2, l = t2 ++ ['\n'] ∧ t2 ≠ [] ∧ ∀ ch ∈ t2, allowed_name_char ch = true)) := by
  unfold regex_name_match
  simp only [Bool.or_eq_true, Bool.and_eq_true, List.all_eq_true, beq_iff_eq,
    Bool.not_eq_true', List.isEmpty_eq_false]
  constructor
  · rintro (⟨hne, hall⟩ | ⟨⟨hlast, hne⟩, hall⟩)
    · exact Or.inl ⟨hne, hall⟩
    · right
      have hl : l ≠ [] := by
        intro hc
        rw [hc] at hlast
        cases hlast
      refine ⟨l.dropLast, ?_, hne, hall⟩
      have hg := List.getLast?_eq_getLast l hl
      rw [hg] at hlast
      have hlc : l.getLast hl = '\n' := by injection hlast
      rw [← hlc]
      exact (List.dropLast_append_getLast hl).symm
  · rintro (⟨hne, hall⟩ | ⟨t2, hl2, hne, hall⟩)
    · exact Or.inl ⟨hne, hall⟩
    · right
      subst hl2
      simp only [List.getLast?_concat, List.dropLast_concat]
      exact ⟨⟨trivial, hne⟩, hall⟩

/-- C9 (amended): `start_service` raises the invalid-service-name error iff
the name is empty or whitespace-only, shorter than 3 characters, or not a
non-empty run of `[A-Za-z0-9_-]` optionally followed by one trailing newline
(which the regex's `$` anchor tolerates); the error is raised synchronously,
before any registry lookup, reservation or other state change — the
returned manager equals the input. -/
theorem c9_name_validation (s : String) :
    ((validate_service_name s).isSome = true ↔
      (s.data.all py_isspace = true ∨ s.length < 3 ∨
        ¬ ((s.data ≠ [] ∧ ∀ ch ∈ s.data, allowed_name_char ch = true) ∨
           (∃ t2, s.data = t2 ++ ['\n'] ∧ t2 ≠ [] ∧
             ∀ ch ∈ t2, allowed_name_char ch = true)))) ∧
    (∀ (m : ServiceManager) (nq : Option String) (auto : Bool) (fid : String)
       (launch : LaunchOutcome) (ri mv : ℕ) (e : Exc),
      validate_service_name s = some e →
      start_service m s nq auto fid launch ri mv = (.error e, m)) := by
  constructor
  · unfold validate_service_name
    split_ifs with h1 h2 h3
    · simp only [Option.isSome_some, true_iff]
      left
      rcases (by simpa using h1 : s = "" ∨ s.data.all py_isspace = true) with he | ha
      · rw [he]
        rfl
      · exact ha
    · simp only [Option.isSome_some, true_iff]
      right
      left
      exact h2
    · simp only [Option.isSome_some, true_iff]
      right
      right
      rw [← regex_name_match_iff]
      intro hreg
      rw [hreg] at h3
      simp at h3
    · simp only [Option.isSome_none, Bool.false_eq_true, false_iff]
      push_neg
      have hr : regex_name_match s.data = true := by
        cases hb : regex_name_match s.data
        · rw [hb] at h3
          simp at h3
        · rfl
      refine ⟨?_, ?_, (regex_name_match_iff s.data).mp hr⟩
      · intro hsp
        exact h1 (by simp [hsp])
      · simpa using h2
  · intro m nq auto fid launch ri mv e he
    unfold start_service
    rw [he]

/-- C9 counterexample: the name "abc\n" contains a character outside
`[A-Za-z0-9_-]` and — per the claim — should be rejected, yet the validator
accepts it: Python's `$` matches before a single trailing newline. -/
theorem c9_counterexample :
    ('\n' ∈ "abc\n".data ∧ allowed_name_char '\n' = false ∧ 3 ≤ "abc\n".length) ∧
    validate_service_name "abc\n" = none := by
  decide

/-- C9 witness: a name with an inner space is rejected synchronously with no
state change. -/
theorem c9_name_validation_witness :
    start_service demo_manager "a b" none false "inst_x" (.ok 1) 0 0
      = (.error (.invalidServiceName "a b"), demo_manager) :=
  (c9_name_validation "a b").2 demo_manager none false "inst_x" (.ok 1) 0 0
    (.invalidServiceName "a b") (by decide)

end Qdestiny
